import Mathlib

/-!
Verification of the marblerun control plane sources against its
natural-language specification.  The Go sources are shallowly embedded:
byte strings become `List Nat`, Go maps keyed by `string(bytes)` become
association lists with first-match lookup (an overwriting store is a
prepend), fallible functions return `Option`/`Except`, and machine words
are `Nat` reduced modulo `2 ^ 32` where overflow matters.
-/

set_option maxHeartbeats 1000000

namespace Marblerun

/-! ## Quote abstraction (`coordinator/quote`)

Embedded from the `MockValidator` / `MockIssuer` source file.  The
`IsCompliant` predicates are only called there, their bodies are not among
the provided sources, so they are modelled from the spec (see their doc
comments). -/

structure PackageProperties where
  UniqueID : String
  SignerID : String
  ProductID : Nat
  SecurityVersion : Nat
  Debug : Bool
deriving DecidableEq, Repr

/-- Modelled from the spec: the body of `PackageProperties.IsCompliant` is not
among the provided sources (only its caller `MockValidator.Validate` is).  The
spec says: "`PackageProperties.IsCompliant(req)` holds when: `UniqueID` matches
if `req.UniqueID` is set; otherwise `SignerID` matches, `ProductID` matches,
`SecurityVersion ≥ req.SecurityVersion`, and `Debug ≤ req.Debug`."  A string
field is "set" when it is non-empty; `Debug ≤ req.Debug` is the Boolean order
(`false < true`). -/
def PackageProperties.IsCompliant (pp req : PackageProperties) : Bool :=
  if req.UniqueID != "" then
    pp.UniqueID == req.UniqueID
  else
    pp.SignerID == req.SignerID && pp.ProductID == req.ProductID &&
      decide (req.SecurityVersion ≤ pp.SecurityVersion) && (!pp.Debug || req.Debug)

/-- Modelled from the spec: `InfrastructureProperties` holds "opaque properties
the validator compares against the quote's platform claims"; its fields are
modelled as a finite list of named opaque values. -/
structure InfrastructureProperties where
  fields : List (String × String)
deriving DecidableEq, Repr

/-- Modelled from the spec: "`InfrastructureProperties.IsCompliant` is an opaque
field-by-field containment check" — every field the requirement sets must be
present with the same value. -/
def InfrastructureProperties.IsCompliant (ip req : InfrastructureProperties) : Bool :=
  req.fields.all fun kv => ip.fields.contains kv

/-- Go `entry`: the record `MockValidator` stores per registered quote. -/
structure entry where
  message : List Nat
  pp : PackageProperties
  ip : InfrastructureProperties
deriving DecidableEq, Repr

/-- Go `MockValidator`: `valid map[string]entry`, keyed by the exact quote byte
string.  The map is modelled as an association list searched front to back, so
an overwriting insert is a prepend. -/
structure MockValidator where
  valid : List (List Nat × entry)
deriving DecidableEq, Repr

/-- Go `NewMockValidator`. -/
def NewMockValidator : MockValidator := ⟨[]⟩

/-- Go `MockValidator.Validate`.  Returns `none` for the `nil` error and
`some msg` for `errors.New(msg)`. -/
def MockValidator.Validate (m : MockValidator) (quote message : List Nat)
    (pp : PackageProperties) (ip : InfrastructureProperties) : Option String :=
  match m.valid.lookup quote with
  | none => some "wrong quote"
  | some e =>
    if !(e.message == message) then some "wrong message"
    else if !(pp.IsCompliant e.pp) then some "package does not comply"
    else if !(ip.IsCompliant e.ip) then some "infrastructure does not comply"
    else none

/-- Go `MockValidator.AddValidQuote`: `m.valid[string(quote)] = entry{...}`. -/
def MockValidator.AddValidQuote (m : MockValidator) (quote message : List Nat)
    (pp : PackageProperties) (ip : InfrastructureProperties) : MockValidator :=
  ⟨(quote, ⟨message, pp, ip⟩) :: m.valid⟩

/-- Sample package properties used by concrete witnesses. -/
def samplePP : PackageProperties := ⟨"uid", "signer", 3, 2, false⟩

/-- Sample infrastructure properties used by concrete witnesses. -/
def sampleIP : InfrastructureProperties := ⟨[("QESVN", "2")]⟩

/-- C1: `MockValidator.Validate(q, m, pp, ip)` returns ok (`none`) iff an entry
is stored for the exact byte string `q`, its message equals `m` byte for byte,
and both compliance predicates hold; otherwise it returns an error. -/
theorem MockValidator.validate_ok_iff (m : MockValidator) (quote message : List Nat)
    (pp : PackageProperties) (ip : InfrastructureProperties) :
    m.Validate quote message pp ip = none ↔
      ∃ e, m.valid.lookup quote = some e ∧ e.message = message ∧
        pp.IsCompliant e.pp = true ∧ ip.IsCompliant e.ip = true := by
  cases h : m.valid.lookup quote with
  | none => simp [MockValidator.Validate, h]
  | some e =>
    simp only [MockValidator.Validate, h, Option.some.injEq]
    constructor
    · intro hok
      refine ⟨e, rfl, ?_⟩
      by_cases hm : e.message = message
      · by_cases hp : pp.IsCompliant e.pp
        · by_cases hi : ip.IsCompliant e.ip
          · exact ⟨hm, hp, hi⟩
          · simp [hm, hp, hi] at hok
        · simp [hm, hp] at hok
      · simp [hm] at hok
    · rintro ⟨e', he', hm, hp, hi⟩
      cases he'
      simp [hm, hp, hi]

/-- C2: the package compliance predicate, characterised: if the requirement's
`UniqueID` is set then only `UniqueID` is compared; otherwise `SignerID` and
`ProductID` must match, `SecurityVersion` must be at least the required one,
and `Debug` must be at most the required flag. -/
theorem PackageProperties.isCompliant_iff (pp req : PackageProperties) :
    pp.IsCompliant req = true ↔
      (if req.UniqueID ≠ "" then pp.UniqueID = req.UniqueID
       else pp.SignerID = req.SignerID ∧ pp.ProductID = req.ProductID ∧
         req.SecurityVersion ≤ pp.SecurityVersion ∧ (pp.Debug = true → req.Debug = true)) := by
  unfold PackageProperties.IsCompliant
  by_cases h : req.UniqueID = ""
  · simp [h]
    constructor
    · rintro ⟨⟨⟨h1, h2⟩, h3⟩, h4⟩
      refine ⟨h1, h2, h3, ?_⟩
      intro hd
      rcases h4 with h4 | h4
      · simp [hd] at h4
      · exact h4
    · rintro ⟨h1, h2, h3, h4⟩
      refine ⟨⟨⟨h1, h2⟩, h3⟩, ?_⟩
      by_cases hd : pp.Debug
      · exact Or.inr (h4 hd)
      · exact Or.inl (by simp [hd])
  · simp [h]

/-- C3: the table is keyed by the exact quote byte string — re-adding for the
same quote `q` makes `Validate` on `q` check only the latest entry, and adding
an entry for `q` never changes the `Validate` result for any other quote. -/
theorem MockValidator.addValidQuote_exact_key (m : MockValidator) (q m1 m2 : List Nat)
    (pp1 pp2 : PackageProperties) (ip1 ip2 : InfrastructureProperties) :
    (∀ msg pp ip,
      ((m.AddValidQuote q m1 pp1 ip1).AddValidQuote q m2 pp2 ip2).Validate q msg pp ip =
        (m.AddValidQuote q m2 pp2 ip2).Validate q msg pp ip) ∧
    (∀ q' msg pp ip, q' ≠ q →
      (m.AddValidQuote q m2 pp2 ip2).Validate q' msg pp ip = m.Validate q' msg pp ip) := by
  constructor
  · intro msg pp ip
    simp [MockValidator.Validate, MockValidator.AddValidQuote, List.lookup]
  · intro q' msg pp ip hne
    have hb : (q' == q) = false := by simp [hne]
    simp [MockValidator.Validate, MockValidator.AddValidQuote, List.lookup, hb]

/-- Witness for C3 at concrete inputs. -/
theorem MockValidator.addValidQuote_exact_key_witness :
    ((NewMockValidator.AddValidQuote [0, 1] [9] samplePP sampleIP).AddValidQuote
        [0, 1] [8] samplePP sampleIP).Validate [0, 1] [8] samplePP sampleIP =
      (NewMockValidator.AddValidQuote [0, 1] [8] samplePP sampleIP).Validate
        [0, 1] [8] samplePP sampleIP ∧
    (NewMockValidator.AddValidQuote [0, 1] [8] samplePP sampleIP).Validate
        [2] [8] samplePP sampleIP = NewMockValidator.Validate [2] [8] samplePP sampleIP :=
  ⟨(MockValidator.addValidQuote_exact_key NewMockValidator [0, 1] [9] [8]
      samplePP samplePP sampleIP sampleIP).1 [8] samplePP sampleIP,
   (MockValidator.addValidQuote_exact_key NewMockValidator [0, 1] [9] [8]
      samplePP samplePP sampleIP sampleIP).2 [2] [8] samplePP sampleIP (by decide)⟩

/-! ## SHA-256 (`crypto/sha256`, as called by `MockIssuer.Issue`)

`MockIssuer.Issue` returns `sha256.Sum256(message)[:]`.  The hash is embedded
in full (FIPS 180-4, identical to the Go standard library): bytes are `Nat`
values below 256, words are `Nat` values reduced modulo `2 ^ 32`. -/

/-- Reduce to a 32-bit word. -/
def w32 (n : Nat) : Nat := n % 4294967296

/-- 32-bit wrapping addition. -/
def add32 (a b : Nat) : Nat := (a + b) % 4294967296

/-- 32-bit right rotation (inputs below `2 ^ 32`). -/
def rotr32 (x k : Nat) : Nat := w32 ((x >>> k) ||| (x <<< (32 - k)))

/-- SHA-256 `Ch(x, y, z)`; `x ^^^ 4294967295` is 32-bit complement. -/
def ch32 (x y z : Nat) : Nat := (x &&& y) ^^^ ((x ^^^ 4294967295) &&& z)

/-- SHA-256 `Maj(x, y, z)`. -/
def maj32 (x y z : Nat) : Nat := (x &&& y) ^^^ (x &&& z) ^^^ (y &&& z)

/-- SHA-256 `Σ0`. -/
def bSig0 (x : Nat) : Nat := rotr32 x 2 ^^^ rotr32 x 13 ^^^ rotr32 x 22

/-- SHA-256 `Σ1`. -/
def bSig1 (x : Nat) : Nat := rotr32 x 6 ^^^ rotr32 x 11 ^^^ rotr32 x 25

/-- SHA-256 `σ0`. -/
def sSig0 (x : Nat) : Nat := rotr32 x 7 ^^^ rotr32 x 18 ^^^ (x >>> 3)

/-- SHA-256 `σ1`. -/
def sSig1 (x : Nat) : Nat := rotr32 x 17 ^^^ rotr32 x 19 ^^^ (x >>> 10)

/-- The 64 SHA-256 round constants (decimal). -/
def K256 : List Nat :=
  [1116352408, 1899447441, 3049323471, 3921009573, 961987163, 1508970993,
   2453635748, 2870763221, 3624381080, 310598401, 607225278, 1426881987,
   1925078388, 2162078206, 2614888103, 3248222580, 3835390401, 4022224774,
   264347078, 604807628, 770255983, 1249150122, 1555081692, 1996064986,
   2554220882, 2821834349, 2952996808, 3210313671, 3336571891, 3584528711,
   113926993, 338241895, 666307205, 773529912, 1294757372, 1396182291,
   1695183700, 1986661051, 2177026350, 2456956037, 2730485921, 2820302411,
   3259730800, 3345764771, 3516065817, 3600352804, 4094571909, 275423344,
   430227734, 506948616, 659060556, 883997877, 958139571, 1322822218,
   1537002063, 1747873779, 1955562222, 2024104815, 2227730452, 2361852424,
   2428436474, 2756734187, 3204031479, 3329325298]

/-- The eight 32-bit working variables of the compression function. -/
structure Hash8 where
  a : Nat
  b : Nat
  c : Nat
  d : Nat
  e : Nat
  f : Nat
  g : Nat
  h : Nat
deriving DecidableEq, Repr

/-- SHA-256 initial hash value (decimal). -/
def initH256 : Hash8 :=
  ⟨1779033703, 3144134277, 1013904242, 2773480762,
   1359893119, 2600822924, 528734635, 1541459225⟩

/-- Big-endian 4-byte groups to 32-bit words. -/
def bytesToWords : List Nat → List Nat
  | b0 :: b1 :: b2 :: b3 :: rest =>
      w32 (((b0 * 256 + b1) * 256 + b2) * 256 + b3) :: bytesToWords rest
  | _ => []

/-- One extension step of the message schedule: append `W[i]` for `i = length`. -/
def scheduleStep (w : List Nat) : List Nat :=
  let i := w.length
  w ++ [add32 (add32 (sSig1 (w.getD (i - 2) 0)) (w.getD (i - 7) 0))
          (add32 (sSig0 (w.getD (i - 15) 0)) (w.getD (i - 16) 0))]

/-- Extend 16 words to the 64-entry message schedule. -/
def schedule (w : List Nat) : List Nat := scheduleStep^[48] w

/-- One SHA-256 compression round. -/
def sha256Round (s : Hash8) (kw : Nat × Nat) : Hash8 :=
  let t1 := add32 s.h (add32 (bSig1 s.e) (add32 (ch32 s.e s.f s.g) (add32 kw.1 kw.2)))
  let t2 := add32 (bSig0 s.a) (maj32 s.a s.b s.c)
  ⟨add32 t1 t2, s.a, s.b, s.c, add32 s.d t1, s.e, s.f, s.g⟩

/-- Compress one 64-byte block into the running hash. -/
def processBlock (s : Hash8) (block : List Nat) : Hash8 :=
  let w := schedule (bytesToWords block)
  let t := (K256.zip w).foldl sha256Round s
  ⟨add32 s.a t.a, add32 s.b t.b, add32 s.c t.c, add32 s.d t.d,
   add32 s.e t.e, add32 s.f t.f, add32 s.g t.g, add32 s.h t.h⟩

/-- Split a byte list into 64-byte chunks. -/
def chunks64 : List Nat → List (List Nat)
  | [] => []
  | b :: rest => ((b :: rest).take 64) :: chunks64 ((b :: rest).drop 64)
termination_by l => l.length
decreasing_by simp [List.length_drop]; omega

/-- SHA-256 padding: `0x80`, zeros to 56 mod 64, then the 64-bit big-endian
bit length. -/
def sha256Pad (m : List Nat) : List Nat :=
  let len := m.length
  let k := (119 - len % 64) % 64
  let bitLen := len * 8
  m ++ 128 :: List.replicate k 0 ++
    [bitLen >>> 56 % 256, bitLen >>> 48 % 256, bitLen >>> 40 % 256, bitLen >>> 32 % 256,
     bitLen >>> 24 % 256, bitLen >>> 16 % 256, bitLen >>> 8 % 256, bitLen % 256]

/-- Serialize a 32-bit word to 4 big-endian bytes. -/
def wordBytes (x : Nat) : List Nat :=
  [x >>> 24 % 256, x >>> 16 % 256, x >>> 8 % 256, x % 256]

/-- Go `sha256.Sum256`: the 32-byte SHA-256 digest. -/
def Sum256 (m : List Nat) : List Nat :=
  let s := (chunks64 (sha256Pad m)).foldl processBlock initH256
  wordBytes s.a ++ wordBytes s.b ++ wordBytes s.c ++ wordBytes s.d ++
    wordBytes s.e ++ wordBytes s.f ++ wordBytes s.g ++ wordBytes s.h

/-- Go `MockIssuer` (an empty struct). -/
structure MockIssuer where
deriving DecidableEq, Repr

/-- Go `NewMockIssuer`. -/
def NewMockIssuer : MockIssuer := ⟨⟩

/-- Go `MockIssuer.Issue`: `quote := sha256.Sum256(message); return quote[:], nil`. -/
def MockIssuer.Issue (_ : MockIssuer) (message : List Nat) : Except String (List Nat) :=
  .ok (Sum256 message)

/-- C6: `MockIssuer.Issue(m)` never errs and its quote is the 32-byte SHA-256
digest of `m`. -/
theorem MockIssuer.issue_is_sha256 (i : MockIssuer) (m : List Nat) :
    i.Issue m = Except.ok (Sum256 m) ∧ (Sum256 m).length = 32 := by
  refine ⟨rfl, ?_⟩
  unfold Sum256
  simp [wordBytes]

/-! ## Coordinator configuration (`coordinator/config` and the coordinator main)

The `config` package declares the environment variable names; the coordinator
main's `run` function reads them.  `util.Getenv` and the `config.*Default`
values are referenced by `run` but their declarations are not among the
provided sources; they are modelled (see doc comments). -/

namespace config

/-- Go `config.MeshAddr`. -/
def MeshAddr : String := "EDG_COORDINATOR_MESH_ADDR"

/-- Go `config.ClientAddr`. -/
def ClientAddr : String := "EDG_COORDINATOR_CLIENT_ADDR"

/-- Go `config.DNSNames`. -/
def DNSNames : String := "EDG_COORDINATOR_DNS_NAMES"

/-- Go `config.SealDir`. -/
def SealDir : String := "EDG_COORDINATOR_SEAL_DIR"

/-- Go `config.DevMode`. -/
def DevMode : String := "EDG_COORDINATOR_DEV_MODE"

/-- Go `config.EtcdNodeName`. -/
def EtcdNodeName : String := "EDG_COORDINATOR_NODE"

/-- Go `config.EtcdNamespace`. -/
def EtcdNamespace : String := "EDG_COORDINATOR_NAMESPACE"

/-- Go `config.EtcdClusterName`. -/
def EtcdClusterName : String := "EDG_COORDINATOR_CLUSTER"

/-- Go `config.EtcdClusterSize`. -/
def EtcdClusterSize : String := "EDG_COORDINATOR_CLUSTER_SIZE"

/-- Modelled from the spec: `config.PromAddr` is read by the coordinator main
(`os.Getenv(config.PromAddr)`) but its declaration is not among the provided
sources; the spec mentions "Prometheus endpoint wiring" only as out-of-scope
plumbing.  Only its distinctness from the five spec-listed names matters
below. -/
def PromAddr : String := "EDG_COORDINATOR_PROMETHEUS_ADDR"

/-- Modelled from the spec: default for `MeshAddr`, referenced by the
coordinator main but not among the provided sources. -/
def MeshAddrDefault : String := "localhost:2001"

/-- Modelled from the spec: default for `ClientAddr`, referenced by the
coordinator main but not among the provided sources. -/
def ClientAddrDefault : String := "localhost:4433"

/-- Modelled from the spec: default for `DNSNames`, referenced by the
coordinator main but not among the provided sources. -/
def DNSNamesDefault : String := "localhost"

/-- Modelled from the spec: default for `DevMode`, referenced by the
coordinator main but not among the provided sources. -/
def DevModeDefault : String := "0"

end config

/-- Modelled from the spec: `util.Getenv(name, fallback)` is called by the
coordinator main but its body is not among the provided sources; it returns
the environment value when non-empty and the fallback otherwise (an unset Go
environment variable reads as the empty string). -/
def util.Getenv (env : String → String) (name fallback : String) : String :=
  if env name != "" then env name else fallback

/-- Go `strings.Split(s, ",")` on the character list: split at every comma,
keeping empty fields (`strings.Split("", ",")` is `[""]`). -/
def splitCommaChars : List Char → List (List Char)
  | [] => [[]]
  | c :: rest =>
    let r := splitCommaChars rest
    if c = ',' then [] :: r
    else
      match r with
      | [] => [[c]]
      | x :: xs => (c :: x) :: xs

/-- Go `strings.Split(s, ",")`. -/
def stringsSplitComma (s : String) : List String :=
  (splitCommaChars s.data).map List.asString

/-- The configuration the coordinator `run` function derives from the
environment: development logging, the DNS names handed to `core.NewCore`,
the client (REST) server address, the marble (gRPC) mesh server address, and
the Prometheus server address (empty means no Prometheus server is run). -/
structure CoordinatorConfig where
  devMode : Bool
  dnsNames : List String
  clientServerAddr : String
  meshServerAddr : String
  promServerAddr : String
deriving DecidableEq, Repr

/-- The environment reads of the coordinator `run` function, embedded from its
"fetching env vars" block (the seal directory is a parameter of `run`, read by
its caller). -/
def coordinatorRunConfig (env : String → String) : CoordinatorConfig :=
  { devMode := util.Getenv env config.DevMode config.DevModeDefault == "1"
    dnsNames := stringsSplitComma (util.Getenv env config.DNSNames config.DNSNamesDefault)
    clientServerAddr := util.Getenv env config.ClientAddr config.ClientAddrDefault
    meshServerAddr := util.Getenv env config.MeshAddr config.MeshAddrDefault
    promServerAddr := env config.PromAddr }

/-- The five environment option names the spec lists as the recognized
configuration. -/
def specEnvOptions : List String :=
  [config.MeshAddr, config.ClientAddr, config.DNSNames, config.SealDir, config.DevMode]

/-- The environment option names `run` actually consults. -/
def runEnvReads : List String :=
  [config.MeshAddr, config.ClientAddr, config.DNSNames, config.DevMode, config.PromAddr]

/-- Environment with every variable unset. -/
def emptyEnv : String → String := fun _ => ""

/-- Environment that sets only the Prometheus address variable. -/
def promOnlyEnv : String → String :=
  fun n => if n = config.PromAddr then "localhost:9944" else ""

/-- C4 counterexample: two environments that agree on all five spec-listed
options nevertheless lead `run` to different configurations — they differ
only on the Prometheus address variable, which `run` also reads. -/
theorem coordinatorConfig_beyond_listed_options :
    (∀ n ∈ specEnvOptions, emptyEnv n = promOnlyEnv n) ∧
      coordinatorRunConfig emptyEnv ≠ coordinatorRunConfig promOnlyEnv := by
  constructor
  · intro n hn
    fin_cases hn <;> rfl
  · intro h
    have hp := congrArg CoordinatorConfig.promServerAddr h
    simp [coordinatorRunConfig, emptyEnv, promOnlyEnv] at hp

/-- C4 (amended): the environment options affecting the configuration derived
by the coordinator `run` function are exactly MESH_ADDR, CLIENT_ADDR,
DNS_NAMES, DEV_MODE and the Prometheus address (the seal directory is read by
`run`'s caller and passed in as an argument): environments agreeing on those
five names yield the same configuration, and each of the five individually
affects it. -/
theorem coordinatorRunConfig_env_reads :
    (∀ env1 env2 : String → String, (∀ n ∈ runEnvReads, env1 n = env2 n) →
      coordinatorRunConfig env1 = coordinatorRunConfig env2) ∧
    (∀ n ∈ runEnvReads, ∃ env1 env2 : String → String,
      (∀ m, m ≠ n → env1 m = env2 m) ∧
        coordinatorRunConfig env1 ≠ coordinatorRunConfig env2) := by
  constructor
  · intro env1 env2 h
    have hm := h config.MeshAddr (by simp [runEnvReads])
    have hc := h config.ClientAddr (by simp [runEnvReads])
    have hd := h config.DNSNames (by simp [runEnvReads])
    have hv := h config.DevMode (by simp [runEnvReads])
    have hp := h config.PromAddr (by simp [runEnvReads])
    simp [coordinatorRunConfig, util.Getenv, hm, hc, hd, hv, hp]
  · intro n hn
    refine ⟨emptyEnv, fun m => if m = n then "1" else "", fun m hm => by simp [emptyEnv, hm], ?_⟩
    fin_cases hn <;> · intro h; revert h; decide

/-- Witness for the amended C4 at concrete environments. -/
theorem coordinatorRunConfig_env_reads_witness :
    coordinatorRunConfig emptyEnv =
      coordinatorRunConfig (fun n => if n = "SOME_UNRELATED_VAR" then "1" else "") :=
  coordinatorRunConfig_env_reads.1 emptyEnv _ (by decide)

/-- C5 counterexample: with the DNS_NAMES option present but empty, the names
handed to core creation are the comma-split of the default, not the
comma-split `[""]` of the empty value itself. -/
theorem coordinator_dnsNames_empty_value :
    emptyEnv config.DNSNames = "" ∧
      (coordinatorRunConfig emptyEnv).dnsNames ≠ stringsSplitComma "" := by
  constructor
  · rfl
  · decide

/-- C5 (amended): for every non-empty value `v` of the DNS_NAMES option, the
DNS names handed to core creation are exactly the substrings of `v` obtained
by splitting on the comma character, in order; an empty (or unset) value falls
back to the default, whose comma-split is used instead. -/
theorem coordinator_dnsNames_split (env : String → String) (v : String)
    (hv : env config.DNSNames = v) (hne : v ≠ "") :
    (coordinatorRunConfig env).dnsNames = stringsSplitComma v := by
  simp [coordinatorRunConfig, util.Getenv, hv, hne]

/-- Witness for the amended C5 at a concrete environment. -/
theorem coordinator_dnsNames_split_witness :
    (coordinatorRunConfig
        (fun n => if n = config.DNSNames then "a,b" else "")).dnsNames =
      stringsSplitComma "a,b" :=
  coordinator_dnsNames_split _ "a,b" (by decide) (by decide)

/-! ## Admission-webhook injector (`injector/injector.go`)

The injector is embedded at the parsed level: the JSON (un)marshalling of
`AdmissionReview` / `Pod` is deterministic plumbing, so request bodies are
modelled as already-decoded structures and the JSON-patch output as a list of
structured patch operations.  `injector.go` declares no package-level mutable
state; the handlers read the `Mutator` fields and never write them, which the
state-passing wrapper `mutateStep` below makes explicit. -/

structure EnvVar where
  name : String
  value : String
deriving DecidableEq, Repr

structure VolumeMount where
  name : String
  mountPath : String
deriving DecidableEq, Repr

structure DownwardAPIItem where
  path : String
  fieldPath : String
deriving DecidableEq, Repr

structure Volume where
  name : String
  downwardAPI : List DownwardAPIItem
deriving DecidableEq, Repr

structure Toleration where
  key : String
  operator : String
  effect : String
deriving DecidableEq, Repr

structure Container where
  env : List EnvVar
  volumeMounts : List VolumeMount
  resourceLimits : List (String × Nat)
  resourceRequests : List (String × Nat)
deriving DecidableEq, Repr

structure Pod where
  labels : List (String × String)
  Namespace : String
  containers : List Container
  volumes : List Volume
  tolerations : List Toleration
deriving DecidableEq, Repr

/-- A JSON-patch value emitted by the injector. -/
inductive PatchValue
  | env (v : EnvVar)
  | envList (vs : List EnvVar)
  | mount (v : VolumeMount)
  | mountList (vs : List VolumeMount)
  | vol (v : Volume)
  | volList (vs : List Volume)
  | tol (t : Toleration)
  | tolList (ts : List Toleration)
  | resources (limits : List (String × Nat))
  | limits (limits : List (String × Nat))
  | num (n : Nat)
deriving DecidableEq, Repr

/-- One JSON-patch operation (`map[string]interface\x7b\x7d` in the source). -/
structure PatchOp where
  op : String
  path : String
  value : PatchValue
deriving DecidableEq, Repr

/-- The parsed admission request: its UID and the pod object. -/
structure AdmissionRequest where
  uid : String
  pod : Pod
deriving DecidableEq, Repr

/-- The parsed admission review (`Request` may be absent). -/
structure AdmissionReviewReq where
  request : Option AdmissionRequest
deriving DecidableEq, Repr

/-- The admission response the injector builds. -/
structure AdmissionResponse where
  uid : String
  allowed : Bool
  resultMessage : Option String
  patchType : Option String
  patch : Option (List PatchOp)
deriving DecidableEq, Repr

/-- Go map read `pod.Labels[k]`: the empty string when absent. -/
def mapGetD (l : List (String × String)) (k : String) : String :=
  (l.lookup k).getD ""

/-- Go `envIsSet`: whether a variable of the same name is already present. -/
def envIsSet (setVars : List EnvVar) (testVar : EnvVar) : Bool :=
  setVars.any fun v => v.name == testVar.name

/-- Loop of Go `addEnvVar`: the `first` flag is consumed on the first
iteration whether or not a patch is emitted. -/
def addEnvVarLoop (setVars : List EnvVar) (basePath : String) :
    Bool → List EnvVar → List PatchOp
  | _, [] => []
  | first, v :: rest =>
    let value := if first then PatchValue.envList [v] else PatchValue.env v
    let path := if first then basePath else basePath ++ "/-"
    let tail := addEnvVarLoop setVars basePath false rest
    if !(envIsSet setVars v) then ⟨"add", path, value⟩ :: tail else tail

/-- Go `addEnvVar`: a patch for every variable of `newVars` not already set. -/
def addEnvVar (setVars newVars : List EnvVar) (basePath : String) : List PatchOp :=
  addEnvVarLoop setVars basePath (setVars.length == 0) newVars

/-- Go `createResourcePatch`. -/
def createResourcePatch (container : Container) (idx : Nat) (resourceKey : String) : PatchOp :=
  if container.resourceLimits.length == 0 && container.resourceRequests.length == 0 then
    ⟨"add", "/spec/containers/" ++ toString idx ++ "/resources",
      .resources [(resourceKey, 10)]⟩
  else if container.resourceLimits.length == 0 then
    ⟨"add", "/spec/containers/" ++ toString idx ++ "/resources/limits",
      .limits [(resourceKey, 10)]⟩
  else
    ⟨"add", "/spec/containers/" ++ toString idx ++ "/resources/limits/" ++
      (resourceKey.replace "/" "~1"), .num 10⟩

/-- Go `createMountPatch`. -/
def createMountPatch (mounts : Nat) (path mountpath uid : String) : PatchOp :=
  let val : VolumeMount := ⟨"uuid-file-" ++ uid, mountpath⟩
  if mounts == 0 then ⟨"add", path, .mountList [val]⟩
  else ⟨"add", path ++ "/-", .mount val⟩

/-- Go `createVolumePatch`. -/
def createVolumePatch (volumes : Nat) (uid : String) : PatchOp :=
  let val : Volume := ⟨"uuid-file-" ++ uid, [⟨"uuid-file", "metadata.uid"⟩]⟩
  if volumes == 0 then ⟨"add", "/spec/volumes", .volList [val]⟩
  else ⟨"add", "/spec/volumes/-", .vol val⟩

/-- State carried across the container loop of `mutate`: the (growing!)
`newEnvVars` slice, the patch list, and the `needNewVolume` flag. -/
structure MutateLoopState where
  newEnvVars : List EnvVar
  patch : List PatchOp
  needNewVolume : Bool
deriving DecidableEq, Repr

/-- One iteration of the container loop of Go `mutate`. -/
def containerStep (marbleType uid : String) (injectSgx : Bool) (resourceKey : String)
    (s : MutateLoopState) (idx : Nat) (container : Container) : MutateLoopState :=
  let s :=
    if !(envIsSet container.env ⟨"EDG_MARBLE_UUID_FILE", ""⟩) then
      { newEnvVars := s.newEnvVars ++
          [⟨"EDG_MARBLE_UUID_FILE", "/" ++ marbleType ++ "-uid/uuid-file"⟩]
        patch := s.patch ++
          [createMountPatch container.volumeMounts.length
            ("/spec/containers/" ++ toString idx ++ "/volumeMounts")
            ("/" ++ marbleType ++ "-uid") uid]
        needNewVolume := true }
    else s
  let patch := s.patch ++
    addEnvVar container.env s.newEnvVars ("/spec/containers/" ++ toString idx ++ "/env")
  let patch := if injectSgx then patch ++ [createResourcePatch container idx resourceKey] else patch
  { s with patch := patch }

/-- Go `mutate`, embedded at the parsed level (the byte-level JSON decode
errors "invalid admission review" / "invalid pod" are upstream of this
model; `json.Marshal` on the structures built here cannot fail). -/
def mutate (admReviewReq : AdmissionReviewReq) (coordAddr domainName resourceKey : String)
    (injectSgx : Bool) : Except String AdmissionResponse :=
  match admReviewReq.request with
  | none => .error "empty admission request"
  | some req =>
    let pod := req.pod
    let marbleType := mapGetD pod.labels "marblerun/marbletype"
    if marbleType.length == 0 then
      .ok { uid := req.uid, allowed := true,
            resultMessage := some "Missing [marblerun/marbletype] label, injection skipped",
            patchType := none, patch := none }
    else
      let ns := if pod.Namespace.length == 0 then "default" else pod.Namespace
      let newEnvVars : List EnvVar :=
        [⟨"EDG_MARBLE_COORDINATOR_ADDR", coordAddr⟩,
         ⟨"EDG_MARBLE_TYPE", marbleType⟩,
         ⟨"EDG_MARBLE_DNS_NAMES",
          marbleType ++ "," ++ marbleType ++ "." ++ ns ++ "," ++
            marbleType ++ "." ++ ns ++ ".svc." ++ domainName⟩]
      let s := pod.containers.enum.foldl
        (fun s p => containerStep marbleType req.uid injectSgx resourceKey s p.1 p.2)
        ⟨newEnvVars, [], false⟩
      let patch :=
        if s.needNewVolume then s.patch ++ [createVolumePatch pod.volumes.length req.uid]
        else s.patch
      let patch :=
        if injectSgx then
          if pod.tolerations.length == 0 then
            patch ++ [⟨"add", "/spec/tolerations", .tolList [⟨resourceKey, "Exists", "NoSchedule"⟩]⟩]
          else
            patch ++ [⟨"add", "/spec/tolerations/-", .tol ⟨resourceKey, "Exists", "NoSchedule"⟩⟩]
        else patch
      .ok { uid := req.uid, allowed := true, resultMessage := none,
            patchType := some "JSONPatch", patch := some patch }

/-- Go `Mutator`: the injector's configuration. -/
structure Mutator where
  CoordAddr : String
  DomainName : String
  SGXResource : String
deriving DecidableEq, Repr

/-- An incoming HTTP request, at the parsed level: method, Content-Type
header, and the (already decoded) body. -/
structure HttpRequest where
  method : String
  contentType : String
  body : AdmissionReviewReq
deriving DecidableEq, Repr

/-- Result of Go `checkRequest`: either an HTTP error already written to the
response writer, or the body handed on to `mutate`. -/
inductive CheckResult
  | bad (status : Nat) (msg : String)
  | ok (body : AdmissionReviewReq)
deriving DecidableEq, Repr

/-- Go `checkRequest` (the `ioutil.ReadAll` failure is an I/O condition
outside this model). -/
def checkRequest (r : HttpRequest) : CheckResult :=
  if r.method != "POST" then .bad 400 "unable to handle requests other than POST"
  else if r.contentType != "application/json" then .bad 400 "wrong application type"
  else .ok r.body

/-- What a handler call did: the HTTP status written, whether `mutate` was
invoked, and the response body (when one was produced). -/
structure HandlerOutcome where
  status : Nat
  mutateCalled : Bool
  response : Option AdmissionResponse
deriving DecidableEq, Repr

/-- Common body of Go `HandleMutate` / `HandleMutateNoSgx`, which differ only
in the sgx-injection flag passed to `mutate`. -/
def handleMutateWith (m : Mutator) (injectSgx : Bool) (r : HttpRequest) : HandlerOutcome :=
  match checkRequest r with
  | .bad s _ => ⟨s, false, none⟩
  | .ok body =>
    match mutate body m.CoordAddr m.DomainName m.SGXResource injectSgx with
    | .error _ => ⟨500, true, none⟩
    | .ok resp => ⟨200, true, some resp⟩

/-- Go `Mutator.HandleMutate`. -/
def Mutator.HandleMutate (m : Mutator) (r : HttpRequest) : HandlerOutcome :=
  handleMutateWith m true r

/-- Go `Mutator.HandleMutateNoSgx`. -/
def Mutator.HandleMutateNoSgx (m : Mutator) (r : HttpRequest) : HandlerOutcome :=
  handleMutateWith m false r

/-- A call to `mutate` in the context of a `Mutator`, with the mutable state
threaded explicitly.  `injector.go` declares no package-level variables and
`mutate` takes the configuration by value and assigns no fields, so the state
a call leaves behind is the state it was given. -/
def mutateStep (m : Mutator) (body : AdmissionReviewReq) (injectSgx : Bool) :
    Mutator × Except String AdmissionResponse :=
  (m, mutate body m.CoordAddr m.DomainName m.SGXResource injectSgx)

/-- C7: the injector is stateless and deterministic — a call to `mutate`
leaves the mutator state unchanged, and a second call with the same arguments,
run on the state the first call left behind, returns the same result. -/
theorem mutate_stateless_deterministic (m : Mutator) (body : AdmissionReviewReq)
    (injectSgx : Bool) :
    (mutateStep m body injectSgx).1 = m ∧
    (mutateStep (mutateStep m body injectSgx).1 body injectSgx).2 =
      (mutateStep m body injectSgx).2 :=
  ⟨rfl, rfl⟩

/-- C8: a pod whose `marblerun/marbletype` label is absent or empty is
admitted unmodified: `Allowed` is true and neither a patch nor a patch type is
set. -/
theorem mutate_no_label_admits_unmodified (admReviewReq : AdmissionReviewReq)
    (req : AdmissionRequest) (coordAddr domainName resourceKey : String) (injectSgx : Bool)
    (hreq : admReviewReq.request = some req)
    (hlab : mapGetD req.pod.labels "marblerun/marbletype" = "") :
    ∃ resp, mutate admReviewReq coordAddr domainName resourceKey injectSgx = .ok resp ∧
      resp.allowed = true ∧ resp.patch = none ∧ resp.patchType = none := by
  refine ⟨{ uid := req.uid, allowed := true,
            resultMessage := some "Missing [marblerun/marbletype] label, injection skipped",
            patchType := none, patch := none }, ?_, rfl, rfl, rfl⟩
  simp [mutate, hreq, hlab]

/-- Unlabelled sample pod for the C8 witness. -/
def plainPod : Pod := ⟨[("app", "web")], "default", [⟨[], [], [], []⟩], [], []⟩

/-- Witness for C8 at a concrete unlabelled pod. -/
theorem mutate_no_label_admits_unmodified_witness :
    ∃ resp, mutate ⟨some ⟨"uid-0", plainPod⟩⟩ "coord:2001" "cluster.local" "sgx" true =
        .ok resp ∧ resp.allowed = true ∧ resp.patch = none ∧ resp.patchType = none :=
  mutate_no_label_admits_unmodified ⟨some ⟨"uid-0", plainPod⟩⟩ ⟨"uid-0", plainPod⟩
    "coord:2001" "cluster.local" "sgx" true rfl (by decide)

/-- C10: a request whose method is not POST or whose Content-Type is not
exactly `application/json` gets HTTP 400 from both handlers and `mutate` is
not invoked; conversely `mutate` runs only when both checks pass. -/
theorem checkRequest_gates_mutate (m : Mutator) (r : HttpRequest) :
    (r.method ≠ "POST" ∨ r.contentType ≠ "application/json" →
      (m.HandleMutate r).status = 400 ∧ (m.HandleMutate r).mutateCalled = false ∧
      (m.HandleMutateNoSgx r).status = 400 ∧ (m.HandleMutateNoSgx r).mutateCalled = false) ∧
    ((m.HandleMutate r).mutateCalled = true ∨ (m.HandleMutateNoSgx r).mutateCalled = true →
      r.method = "POST" ∧ r.contentType = "application/json") := by
  by_cases hm : r.method = "POST"
  · by_cases hc : r.contentType = "application/json"
    · refine ⟨?_, fun _ => ⟨hm, hc⟩⟩
      rintro (h | h) <;> simp [hm, hc] at h
    · refine ⟨?_, ?_⟩
      · intro _
        simp [Mutator.HandleMutate, Mutator.HandleMutateNoSgx, handleMutateWith,
          checkRequest, hm, hc]
      · intro h
        rcases h with h | h <;>
          simp [Mutator.HandleMutate, Mutator.HandleMutateNoSgx, handleMutateWith,
            checkRequest, hm, hc] at h
  · refine ⟨?_, ?_⟩
    · intro _
      simp [Mutator.HandleMutate, Mutator.HandleMutateNoSgx, handleMutateWith,
        checkRequest, hm]
    · intro h
      rcases h with h | h <;>
        simp [Mutator.HandleMutate, Mutator.HandleMutateNoSgx, handleMutateWith,
          checkRequest, hm] at h

/-- Witness for C10 at a concrete non-POST request. -/
theorem checkRequest_gates_mutate_witness :
    ((⟨"c", "d", "s"⟩ : Mutator).HandleMutate
        ⟨"GET", "application/json", ⟨none⟩⟩).status = 400 ∧
    ((⟨"c", "d", "s"⟩ : Mutator).HandleMutate
        ⟨"GET", "application/json", ⟨none⟩⟩).mutateCalled = false ∧
    ((⟨"c", "d", "s"⟩ : Mutator).HandleMutateNoSgx
        ⟨"GET", "application/json", ⟨none⟩⟩).status = 400 ∧
    ((⟨"c", "d", "s"⟩ : Mutator).HandleMutateNoSgx
        ⟨"GET", "application/json", ⟨none⟩⟩).mutateCalled = false :=
  (checkRequest_gates_mutate ⟨"c", "d", "s"⟩ ⟨"GET", "application/json", ⟨none⟩⟩).1
    (Or.inl (by decide))

/-- A labelled pod with two containers, both lacking `EDG_MARBLE_UUID_FILE`. -/
def twoContainerPod : Pod :=
  ⟨[("marblerun/marbletype", "backend")], "", [⟨[], [], [], []⟩, ⟨[], [], [], []⟩], [], []⟩

/-- Count the add-patches targeting the env list at `basePath` that inject the
`EDG_MARBLE_UUID_FILE` variable. -/
def countUuidEnvAdds (ps : List PatchOp) (basePath : String) : Nat :=
  (ps.filter fun p =>
    p.op == "add" && (p.path == basePath || p.path == basePath ++ "/-") &&
      (match p.value with
       | .env v => v.name == "EDG_MARBLE_UUID_FILE"
       | .envList vs => vs.any fun v => v.name == "EDG_MARBLE_UUID_FILE"
       | _ => false)).length

/-- The patch list of a `mutate` result (empty when absent). -/
def patchOf (e : Except String AdmissionResponse) : List PatchOp :=
  match e with
  | .ok resp => resp.patch.getD []
  | .error _ => []

/-- C9: `newEnvVars` accumulates across the container loop of `mutate`, so on
a pod with two containers that both lack `EDG_MARBLE_UUID_FILE` the add-patch
for that variable is emitted once for the first container but twice for the
second — the injected variable is duplicated. -/
theorem mutate_duplicates_uuid_env :
    countUuidEnvAdds
        (patchOf (mutate ⟨some ⟨"u1", twoContainerPod⟩⟩ "coord:2001" "cluster.local" "sgx" false))
        "/spec/containers/0/env" = 1 ∧
    countUuidEnvAdds
        (patchOf (mutate ⟨some ⟨"u1", twoContainerPod⟩⟩ "coord:2001" "cluster.local" "sgx" false))
        "/spec/containers/1/env" = 2 := by
  constructor <;> decide

end Marblerun
